import Mathlib

/-!
Verification development for the voicesportstat backend audio pipeline
(`src/backend/app/services/audio_service.py`,
`src/backend/app/services/transcription_service.py`,
`src/backend/app/services/azure_blob_service.py`).

Bytes are modelled as `List Nat` (each element one byte value).  Wall-clock
instants are modelled as microseconds since an arbitrary epoch (`Nat`), which
is the resolution of Python `datetime`.  External collaborators (the ffmpeg
transcoder, the Whisper API call, the Azure blob upload) are modelled as
oracle parameters, since their behaviour is outside the repository.
-/

/-- Little-endian 16-bit encoding, as written by Python `struct.pack` inside
the `wave` module. -/
def u16le (n : Nat) : List Nat := [n % 256, n / 256 % 256]

/-- Little-endian 32-bit encoding, as written by Python `struct.pack` inside
the `wave` module. -/
def u32le (n : Nat) : List Nat :=
  [n % 256, n / 256 % 256, n / 65536 % 256, n / 16777216 % 256]

/-- ASCII bytes of a tag string such as RIFF, WAVE, fmt, data. -/
def tagBytes (s : String) : List Nat := s.toList.map Char.toNat

/-- Target sample rate, `AudioProcessingService.TARGET_SAMPLE_RATE` (16000). -/
def TARGET_SAMPLE_RATE : Nat := 16000

/-- Target channel count, `AudioProcessingService.TARGET_CHANNELS` (1). -/
def TARGET_CHANNELS : Nat := 1

/-- Target sample width in bytes, `AudioProcessingService.TARGET_SAMPLE_WIDTH` (2). -/
def TARGET_SAMPLE_WIDTH : Nat := 2

/-- `AudioProcessingService._wav_from_pcm`: wrap raw PCM S16LE 16k mono bytes
into a WAV container.  The Python code delegates to the standard `wave`
module opened for writing with the target parameters; on close that module
emits exactly one RIFF header (RIFF size = 36 + data length), one 16-byte
fmt chunk describing uncompressed PCM, and one data chunk holding the PCM
bytes, which is the byte layout reproduced here. -/
def wavFromPcm (pcm : List Nat) : List Nat :=
  tagBytes "RIFF" ++ u32le (36 + pcm.length) ++ tagBytes "WAVE" ++
  tagBytes "fmt " ++ u32le 16 ++
  u16le 1 ++                                 -- WAVE_FORMAT_PCM
  u16le TARGET_CHANNELS ++
  u32le TARGET_SAMPLE_RATE ++
  u32le (TARGET_SAMPLE_RATE * TARGET_CHANNELS * TARGET_SAMPLE_WIDTH) ++
  u16le (TARGET_CHANNELS * TARGET_SAMPLE_WIDTH) ++
  u16le (TARGET_SAMPLE_WIDTH * 8) ++
  tagBytes "data" ++ u32le pcm.length ++ pcm

/-- Read a little-endian 32-bit value from the head of a byte list. -/
def readU32le : List Nat → Option Nat
  | a :: b :: c :: d :: _ => some (a + 256 * b + 65536 * c + 16777216 * d)
  | _ => none

/-- Read a little-endian 16-bit value from the head of a byte list. -/
def readU16le : List Nat → Option Nat
  | a :: b :: _ => some (a + 256 * b)
  | _ => none

/-- Modelled from the spec: the chunk walk of a conformant WAV decoder (the
spec's Transcription Oracle consumes the canonical container; a conformant
RIFF reader walks the chunk list, skipping non-data chunks including their
word-alignment padding, and returns the payload of the data chunk).  The
fuel argument bounds the recursion. -/
def findDataChunk : Nat → List Nat → Option (List Nat)
  | 0, _ => none
  | fuel + 1, bytes =>
    match bytes with
    | i0 :: i1 :: i2 :: i3 :: rest =>
      match readU32le rest with
      | some size =>
        let body := rest.drop 4
        if [i0, i1, i2, i3] = tagBytes "data" then
          some (body.take size)
        else
          findDataChunk fuel (body.drop (size + size % 2))
      | none => none
    | _ => none

/-- Modelled from the spec: a conformant WAV decoder extracting the audio
data bytes from a canonical container (checks the RIFF/WAVE signature, then
walks the chunks to the data chunk). -/
def extractWavData (bytes : List Nat) : Option (List Nat) :=
  if bytes.take 4 = tagBytes "RIFF" ∧ (bytes.drop 8).take 4 = tagBytes "WAVE" then
    findDataChunk bytes.length (bytes.drop 12)
  else
    none

theorem wavFromPcm_length (pcm : List Nat) :
    (wavFromPcm pcm).length = pcm.length + 44 := by
  simp [wavFromPcm, tagBytes, u16le, u32le]

/-- C9: wrapping an even-length PCM byte sequence (of bounded length, so the
32-bit header size fields are faithful) into the canonical WAV container and
extracting the audio data with a conformant WAV decoder returns exactly the
original bytes. -/
theorem c9_wav_roundtrip (pcm : List Nat)
    (heven : pcm.length % 2 = 0) (hlen : pcm.length < 2 ^ 32 - 36) :
    extractWavData (wavFromPcm pcm) = some pcm := by
  have hmod : pcm.length % 4294967296 = pcm.length := by
    apply Nat.mod_eq_of_lt
    omega
  have hfuel : (wavFromPcm pcm).length = pcm.length + 44 := wavFromPcm_length pcm
  rw [extractWavData, hfuel]
  simp only [wavFromPcm, tagBytes, u16le, u32le, TARGET_CHANNELS,
    TARGET_SAMPLE_RATE, TARGET_SAMPLE_WIDTH]
  norm_num [List.take_append, List.drop_append]
  rw [show pcm.length + 44 = (pcm.length + 43) + 1 by omega]
  simp [findDataChunk, readU32le, tagBytes]
  omega

/-- Python truthiness of the stored mime type (`if not session.get("source_mime_type")`):
`None` and the empty string are falsy. -/
def pyFalsyStr : Option String → Bool
  | none => true
  | some s => s == ""

/-- ASCII lowering, as Python `str.lower` on the (ASCII) mime strings. -/
def lowerStr (s : String) : String := String.mk (s.data.map Char.toLower)

/-- Whether the second character list occurs contiguously inside the first. -/
def charListContains : List Char → List Char → Bool
  | hay, needle =>
    needle.isPrefixOf hay ||
      match hay with
      | [] => false
      | _ :: t => charListContains t needle

/-- Python substring containment `needle in hay`. -/
def hasSubstr (hay needle : String) : Bool := charListContains hay.data needle.data

/-- The WebM branch test used at lines 223, 240, 295, 364 and 452 of
`audio_service.py`: the stored mime type is truthy and contains "webm" after
lowering (`(session.get("source_mime_type") or "").lower()` for the batch
variant — identical on all inputs). -/
def isWebmSource (m : Option String) : Bool := hasSubstr (lowerStr (m.getD "")) "webm"

/-- `(datetime.now() - session["last_processed"]).seconds`: the `seconds`
attribute of a Python `timedelta` is the whole-second remainder after the
day component is split off, not the total elapsed seconds.  Instants are
microseconds; a monotone clock (`lastUs ≤ nowUs`) is assumed. -/
def timedeltaSeconds (nowUs lastUs : Nat) : Nat := (nowUs - lastUs) / 1000000 % 86400

/-- `AudioProcessingService.BATCH_SIZE_SECONDS` (5). -/
def BATCH_SIZE_SECONDS : Nat := 5

/-- `AudioProcessingService.MIN_CHUNKS_FOR_BATCH` (5). -/
def MIN_CHUNKS_FOR_BATCH : Nat := 5

/-- `AudioProcessingService.MAX_CHUNKS_FOR_BATCH` (20). -/
def MAX_CHUNKS_FOR_BATCH : Nat := 20

/-- Chunk metadata stored in `session["chunks"]` (lines 245-250). -/
structure ChunkMeta where
  timestamp : Nat
  sequenceNumber : Nat
  mimeType : Option String
  decodedPcmBytes : Nat
  deriving DecidableEq

/-- One session's entry of `audio_sessions` (lines 107-123), with the
`finalized` key (absent ~ false).  Wall-clock values are microseconds. -/
structure Session where
  chunks : List ChunkMeta
  startTime : Nat
  lastProcessed : Nat
  totalChunks : Nat
  language : String
  pcmBuffer : List Nat
  lastBatchOffset : Nat
  sourceMimeType : Option String
  webmBuffer : List Nat
  processedPcmOffset : Nat
  fullPcmBuffer : List Nat
  finalized : Bool
  deriving DecidableEq

/-- The fresh session dict created on connect (lines 107-123). -/
def initSession (now : Nat) : Session :=
  { chunks := [], startTime := now, lastProcessed := now, totalChunks := 0,
    language := "en", pcmBuffer := [], lastBatchOffset := 0, sourceMimeType := none,
    webmBuffer := [], processedPcmOffset := 0, fullPcmBuffer := [], finalized := false }

/-- The spec's `sourceFormat` enum, a view of the stored mime type. -/
inductive SourceFormat where
  | RAW_PCM_CONTAINER
  | STREAMING_CONTAINER
  | UNKNOWN
  deriving DecidableEq

/-- The spec's view of a session's source format: unset mime is UNKNOWN,
otherwise the streaming-container substring match decides. -/
def sourceFormatOf (s : Session) : SourceFormat :=
  match s.sourceMimeType with
  | none => .UNKNOWN
  | some m => if isWebmSource (some m) then .STREAMING_CONTAINER else .RAW_PCM_CONTAINER

/-- The Codec Transcoder collaborator (`_decode_to_pcm`, delegating to
ffmpeg, including its internal retry without the format hint): raw bytes and
a mime hint to either decoded PCM bytes or a raised error message. -/
def Decoder : Type := List Nat → Option String → Except String (List Nat)

/-- The payload of a successful Whisper API call (`client.audio.transcriptions.create`). -/
structure WhisperResp where
  text : String
  detectedLanguage : Option String
  deriving DecidableEq

/-- One batch's outcome of the underlying Whisper API call: the response, or
the raised exception's message. -/
def WhisperOracle : Type := Except String WhisperResp

/-- One outcome of `azure_blob_service.upload_session_audio`: `.ok (some name)`
is a completed upload, `.ok none` is the unconfigured skip (returns None, not
an error), `.error` is a raised exception (e.g. the blob client failing). -/
def StoreOracle : Type := Except String (Option String)

/-- The result dict of `TranscriptionService.transcribe_audio`.  The
wall-clock `timestamp` string is omitted; `modelName` is the dict's "model"
key. -/
structure TranscriptionResult where
  text : String
  confidence : ℚ
  duration : ℚ
  chunkCount : Nat
  audioSizeBytes : Nat
  modelName : Option String
  language : Option String
  detectedLanguage : Option (Option String)
  error : Option String
  deriving DecidableEq

/-- The WAV diagnostics of `transcribe_audio` (lines 41-51): reopen the just
written WAV, frames = data-chunk size divided by the frame size declared in
the fmt header, rate falls back to 16000 when the header says 0; any failure
(malformed container, zero frame size) raises and yields `none`, sending the
caller to the chunk-count fallback.  The canonical containers produced by
`wavFromPcm` carry their fmt chunk at offset 12, where this reads it. -/
def wavDiagDuration (b : List Nat) : Option ℚ :=
  match extractWavData b, readU16le (b.drop 22), readU32le (b.drop 24), readU16le (b.drop 34) with
  | some dataBytes, some ch, some _, some bits =>
    let framesize := ch * (bits / 8)
    if framesize = 0 then none
    else
      let rate := match readU32le (b.drop 24) with
        | some 0 => 16000
        | some r => r
        | none => 16000
      -- `wf.getnframes()` is integer division; `frames / float(rate)` is exact
      some (((dataBytes.length / framesize : Nat) : ℚ) / (rate : ℚ))
  | _, _, _, _ => none

/-- `TranscriptionService.transcribe_audio` (lines 27-103).  The whisper
oracle is the outcome of the API call; every raise inside the `try` is
caught by the `except` which returns the inline error dict, so this function
is total.  Not modelled: the temp-file round trip (the diagnostics read back
exactly the bytes written), `save_transcription_to_json` (file persistence),
wall-clock timestamps, and the final `round(x, 2)` binary floating-point
rounding of the reported duration (the exact rational is kept). -/
def transcribeAudio (whisper : WhisperOracle) (audioBytes : List Nat)
    (chunkCount : Nat) (language : String) : TranscriptionResult :=
  let estimatedDuration : ℚ :=
    match wavDiagDuration audioBytes with
    | some d => d
    | none => (chunkCount : ℚ) * (1 / 4)
  match whisper with
  | .ok resp =>
    { text := resp.text, confidence := 95 / 100,
      -- `float(estimated_duration or chunk_count * 0.25)`: 0.0 is falsy
      duration := if estimatedDuration = 0 then (chunkCount : ℚ) * (1 / 4) else estimatedDuration,
      chunkCount := chunkCount, audioSizeBytes := audioBytes.length,
      modelName := some "whisper-1", language := some language,
      detectedLanguage := some resp.detectedLanguage, error := none }
  | .error e =>
    { text := "[Transcription Error: " ++ e ++ "]", confidence := 0,
      duration := (chunkCount : ℚ) * 1, chunkCount := chunkCount,
      audioSizeBytes := audioBytes.length, modelName := none, language := none,
      detectedLanguage := none, error := some e }

/-- Outbound WebSocket events (§6 of the spec), wall-clock timestamp strings
and fixed message texts omitted; `batchProcessing` carries the chunk count
and container size interpolated into its message. -/
inductive OutEvent where
  | audioAck (sequenceNumber : Nat) (batchSize : Nat)
  | errorEv (message : String)
  | batchProcessing (chunkCount : Nat) (totalSize : Nat)
  | batchTranscription (text : String) (confidence : ℚ) (chunkCount : Nat) (duration : ℚ)
  | recordingComplete (totalChunksProcessed : Nat)
  deriving DecidableEq

/-- Observation of one `process_audio_batch` run: final session, events sent,
how many times the Transcription collaborator was invoked, the WAV container
handed to it, and the argument of the batch-time decoder call (line 300). -/
structure BatchOutcome where
  session : Session
  events : List OutEvent
  transcriptionCalls : Nat
  sentWav : Option (List Nat)
  decodeArg : Option (List Nat × Option String)
  deriving DecidableEq

/-- `AudioProcessingService.process_audio_batch` (lines 281-385).  WebSocket
sends are modelled as pure event accumulation (a raising send is not
modelled; the transcription step itself never raises, see
`transcribeAudio`). -/
def processAudioBatch (dec : Decoder) (whisper : WhisperOracle) (now : Nat)
    (s : Session) : BatchOutcome :=
  if s.chunks.isEmpty then ⟨s, [], 0, none, none⟩
  else if isWebmSource s.sourceMimeType then
    -- decode the entire cumulative WebM buffer, then slice the new PCM
    match dec s.webmBuffer (some "webm") with
    | .error e =>
      ⟨s, [.errorEv ("Batch WebM decode failed: " ++ e)], 0, none,
        some (s.webmBuffer, some "webm")⟩
    | .ok pcmFull =>
      if pcmFull.length ≤ s.processedPcmOffset then
        -- no new PCM: silent abort, chunks kept (lines 311-313)
        ⟨s, [], 0, none, some (s.webmBuffer, some "webm")⟩
      else
        let pcmSlice := pcmFull.drop s.processedPcmOffset
        let wavBytes := wavFromPcm pcmSlice
        let s1 := { s with processedPcmOffset := pcmFull.length }
        let tr := transcribeAudio whisper wavBytes s.chunks.length s.language
        ⟨{ s1 with chunks := [], lastProcessed := now },
          [.batchProcessing s.chunks.length wavBytes.length,
           .batchTranscription tr.text tr.confidence s.chunks.length tr.duration],
          1, some wavBytes, some (s.webmBuffer, some "webm")⟩
  else
    -- slice [last_batch_offset : len(pcm_buffer)] of the PCM accumulator
    if s.pcmBuffer.length ≤ s.lastBatchOffset then
      -- no new PCM: silent abort, chunks kept (lines 328-330)
      ⟨s, [], 0, none, none⟩
    else
      let pcmSlice := s.pcmBuffer.drop s.lastBatchOffset
      let wavBytes := wavFromPcm pcmSlice
      let tr := transcribeAudio whisper wavBytes s.chunks.length s.language
      -- compaction (lines 368-371): drop [0 : end_offset], reset offset to 0
      let s1 := { s with pcmBuffer := s.pcmBuffer.drop s.pcmBuffer.length,
                         lastBatchOffset := 0, chunks := [], lastProcessed := now }
      ⟨s1,
        [.batchProcessing s.chunks.length wavBytes.length,
         .batchTranscription tr.text tr.confidence s.chunks.length tr.duration],
        1, some wavBytes, none⟩

/-- The fields of an `audio_chunk` message read at lines 204-207.  `mimeType`
is the value of `message.get("mimeType", "audio/wav")`: `some "audio/wav"`
when the key is absent, `none` when the inbound JSON carried null. -/
structure ChunkMsg where
  data : List Nat
  timestamp : Nat
  sequenceNumber : Nat
  mimeType : Option String
  deriving DecidableEq

/-- Observation of one `process_audio_chunk_batch` run: final session, events
sent, nested Transcription-collaborator calls, and whether the batch branch
(`if should_process`) was entered. -/
structure ChunkOutcome where
  session : Session
  events : List OutEvent
  transcriptionCalls : Nat
  batchTriggered : Bool
  deriving DecidableEq

/-- Lines 219-220 of `process_audio_chunk_batch`: persist the source mime
type on first sight (Python truthiness guard: a falsy stored value — absent
or empty — is overwritten). -/
def fixSourceMime (s : Session) (msg : ChunkMsg) : Session :=
  if pyFalsyStr s.sourceMimeType then { s with sourceMimeType := msg.mimeType } else s

/-- Lines 219-242 of `process_audio_chunk_batch`: after the mime fix, either
buffer the raw WebM container bytes (deferring decode to batch time,
`decoded_len = 0`) or decode the chunk to PCM immediately and append it to
both PCM accumulators; a decode failure propagates as the error. -/
def chunkBuffered (dec : Decoder) (s : Session) (msg : ChunkMsg) :
    Except String (Session × Nat) :=
  let s0 := fixSourceMime s msg
  if isWebmSource s0.sourceMimeType then
    .ok ({ s0 with webmBuffer := s0.webmBuffer ++ msg.data }, 0)
  else
    match dec msg.data msg.mimeType with
    | .error e => .error e
    | .ok pcmBytes =>
      .ok ({ s0 with pcmBuffer := s0.pcmBuffer ++ pcmBytes,
                     fullPcmBuffer := s0.fullPcmBuffer ++ pcmBytes }, pcmBytes.length)

/-- `AudioProcessingService.process_audio_chunk_batch` (lines 200-279): fix
the source mime on first (truthy-less) sight, buffer WebM container bytes or
decode PCM immediately, bail out with an error event on decode failure
(leaving counters and buffers untouched), otherwise record metadata, count
the chunk, acknowledge, and evaluate the batch trigger. -/
def processAudioChunkBatch (dec : Decoder) (whisper : WhisperOracle) (now : Nat)
    (s : Session) (msg : ChunkMsg) : ChunkOutcome :=
  let s0 := fixSourceMime s msg
  match chunkBuffered dec s msg with
  | .error e =>
    { session := s0,
      events := [.errorEv ("PCM decode failed for chunk " ++
        toString msg.sequenceNumber ++ ": " ++ e)],
      transcriptionCalls := 0, batchTriggered := false }
  | .ok (s1, decodedLen) =>
    -- lines 245-251: metadata and the total counter
    let meta : ChunkMeta :=
      { timestamp := msg.timestamp, sequenceNumber := msg.sequenceNumber,
        mimeType := msg.mimeType, decodedPcmBytes := decodedLen }
    let s2 := { s1 with chunks := s1.chunks ++ [meta], totalChunks := s1.totalChunks + 1 }
    -- lines 253-261: acknowledgment with the running in-batch count
    let ack := OutEvent.audioAck msg.sequenceNumber s2.chunks.length
    -- lines 263-268: the batch trigger policy
    let shouldProcess :=
      decide (MIN_CHUNKS_FOR_BATCH ≤ s2.chunks.length) ||
      decide (MAX_CHUNKS_FOR_BATCH ≤ s2.chunks.length) ||
      decide (BATCH_SIZE_SECONDS ≤ timedeltaSeconds now s2.lastProcessed)
    if shouldProcess then
      let b := processAudioBatch dec whisper now s2
      { session := b.session, events := ack :: b.events,
        transcriptionCalls := b.transcriptionCalls, batchTriggered := true }
    else
      { session := s2, events := [ack], transcriptionCalls := 0, batchTriggered := false }

/-- `AudioProcessingService.process_final_batch` (lines 387-414): one last
batch pass when chunks are pending, then the recording_complete notice if
the socket still reports itself connected (after which the socket is
closed). -/
def processFinalBatch (dec : Decoder) (whisper : WhisperOracle) (now : Nat)
    (s : Session) (connected : Bool) : Session × List OutEvent :=
  let step :=
    if s.chunks.isEmpty then (s, ([] : List OutEvent))
    else
      let b := processAudioBatch dec whisper now s
      (b.session, b.events)
  (step.1, step.2 ++ if connected then [OutEvent.recordingComplete step.1.totalChunks] else [])

/-- `AudioProcessingService._build_full_wav` (lines 451-468): the full-session
canonical container — a fresh full decode of the WebM buffer, or the raw
accumulated `full_pcm_buffer`; `none` when nothing was captured or the
decode fails. -/
def buildFullWav (dec : Decoder) (s : Session) : Option (List Nat) :=
  if isWebmSource s.sourceMimeType then
    if s.webmBuffer.isEmpty then none
    else
      match dec s.webmBuffer (some "webm") with
      | .error _ => none
      | .ok pcmBytes => if pcmBytes.isEmpty then none else some (wavFromPcm pcmBytes)
  else
    if s.fullPcmBuffer.isEmpty then none else some (wavFromPcm s.fullPcmBuffer)

/-- Observation of one `finalize_session_recording` run: final session,
whether the Object Store collaborator (`upload_session_audio`) was invoked,
and with which container. -/
structure FinalizeOutcome where
  session : Session
  storeCalled : Bool
  storedWav : Option (List Nat)
  deriving DecidableEq

/-- `AudioProcessingService.finalize_session_recording` (lines 416-449).
The `finalized` guard returns early; an empty build skips the upload (and
does not set `finalized`); after a completed upload call — including the
unconfigured `None` skip — `finalized` is set; a raising upload is caught by
the `except` which only logs, so `finalized` is NOT set in that case because
the assignment sits after the call inside the `try`.  The metadata dict
(language, source mime, chunk count, start time) is not observed here. -/
def finalizeSessionRecording (dec : Decoder) (store : StoreOracle)
    (s : Session) : FinalizeOutcome :=
  if s.finalized then ⟨s, false, none⟩
  else
    match buildFullWav dec s with
    | none => ⟨s, false, none⟩
    | some wavBytes =>
      match store with
      | .ok _ => ⟨{ s with finalized := true }, true, some wavBytes⟩
      | .error _ => ⟨s, true, some wavBytes⟩

/-- Observation of one connection teardown. -/
structure TeardownOutcome where
  events : List OutEvent
  finalSession : Session
  storeCalled : Bool
  removed : Bool
  deriving DecidableEq

/-- The exit paths of `handle_websocket_connection` (lines 164-198): a
graceful `end_recording` event runs `process_final_batch` and then breaks
out of the receive loop; an abrupt `WebSocketDisconnect` breaks directly.
Either way the `finally` block runs `finalize_session_recording` and then
unconditionally deletes the session from the registry (`removed`). -/
def sessionTeardown (dec : Decoder) (whisper : WhisperOracle) (store : StoreOracle)
    (now : Nat) (graceful connected : Bool) (s : Session) : TeardownOutcome :=
  let drained :=
    if graceful then processFinalBatch dec whisper now s connected
    else (s, ([] : List OutEvent))
  let f := finalizeSessionRecording dec store drained.1
  ⟨drained.2, f.session, f.storeCalled, true⟩

/-- Whether an outbound event is a structured error event. -/
def isErrorEvent : OutEvent → Bool
  | .errorEv _ => true
  | _ => false

/-- The stored mime type after the first-sight fix of lines 219-220. -/
def mimeAfterFix (s : Session) (msg : ChunkMsg) : Option String :=
  if pyFalsyStr s.sourceMimeType then msg.mimeType else s.sourceMimeType

@[simp]
theorem fixSourceMime_mime (s : Session) (msg : ChunkMsg) :
    (fixSourceMime s msg).sourceMimeType = mimeAfterFix s msg := by
  unfold fixSourceMime mimeAfterFix
  split <;> rfl

@[simp]
theorem fixSourceMime_chunks (s : Session) (msg : ChunkMsg) :
    (fixSourceMime s msg).chunks = s.chunks := by
  unfold fixSourceMime
  split <;> rfl

@[simp]
theorem fixSourceMime_lastProcessed (s : Session) (msg : ChunkMsg) :
    (fixSourceMime s msg).lastProcessed = s.lastProcessed := by
  unfold fixSourceMime
  split <;> rfl

@[simp]
theorem fixSourceMime_totalChunks (s : Session) (msg : ChunkMsg) :
    (fixSourceMime s msg).totalChunks = s.totalChunks := by
  unfold fixSourceMime
  split <;> rfl

@[simp]
theorem fixSourceMime_pcmBuffer (s : Session) (msg : ChunkMsg) :
    (fixSourceMime s msg).pcmBuffer = s.pcmBuffer := by
  unfold fixSourceMime
  split <;> rfl

@[simp]
theorem fixSourceMime_fullPcmBuffer (s : Session) (msg : ChunkMsg) :
    (fixSourceMime s msg).fullPcmBuffer = s.fullPcmBuffer := by
  unfold fixSourceMime
  split <;> rfl

@[simp]
theorem fixSourceMime_lastBatchOffset (s : Session) (msg : ChunkMsg) :
    (fixSourceMime s msg).lastBatchOffset = s.lastBatchOffset := by
  unfold fixSourceMime
  split <;> rfl

@[simp]
theorem fixSourceMime_processedPcmOffset (s : Session) (msg : ChunkMsg) :
    (fixSourceMime s msg).processedPcmOffset = s.processedPcmOffset := by
  unfold fixSourceMime
  split <;> rfl

@[simp]
theorem fixSourceMime_webmBuffer (s : Session) (msg : ChunkMsg) :
    (fixSourceMime s msg).webmBuffer = s.webmBuffer := by
  unfold fixSourceMime
  split <;> rfl

@[simp]
theorem fixSourceMime_finalized (s : Session) (msg : ChunkMsg) :
    (fixSourceMime s msg).finalized = s.finalized := by
  unfold fixSourceMime
  split <;> rfl

@[simp]
theorem fixSourceMime_language (s : Session) (msg : ChunkMsg) :
    (fixSourceMime s msg).language = s.language := by
  unfold fixSourceMime
  split <;> rfl

@[simp]
theorem fixSourceMime_startTime (s : Session) (msg : ChunkMsg) :
    (fixSourceMime s msg).startTime = s.startTime := by
  unfold fixSourceMime
  split <;> rfl

theorem fixSourceMime_of_truthy (s : Session) (msg : ChunkMsg)
    (h : pyFalsyStr s.sourceMimeType = false) : fixSourceMime s msg = s := by
  unfold fixSourceMime
  simp [h]

theorem chunkBuffered_webm (dec : Decoder) (s : Session) (msg : ChunkMsg)
    (hwm : isWebmSource (mimeAfterFix s msg) = true) :
    chunkBuffered dec s msg =
      .ok ({ fixSourceMime s msg with webmBuffer := s.webmBuffer ++ msg.data }, 0) := by
  unfold chunkBuffered
  simp [hwm]

theorem chunkBuffered_raw (dec : Decoder) (s : Session) (msg : ChunkMsg) (pcm : List Nat)
    (hwm : isWebmSource (mimeAfterFix s msg) = false)
    (hok : dec msg.data msg.mimeType = .ok pcm) :
    chunkBuffered dec s msg =
      .ok ({ fixSourceMime s msg with pcmBuffer := s.pcmBuffer ++ pcm, fullPcmBuffer := s.fullPcmBuffer ++ pcm }, pcm.length) := by
  unfold chunkBuffered
  simp [hwm, hok]

theorem chunkBuffered_error (dec : Decoder) (s : Session) (msg : ChunkMsg) (e : String)
    (hwm : isWebmSource (mimeAfterFix s msg) = false)
    (hdec : dec msg.data msg.mimeType = .error e) :
    chunkBuffered dec s msg = .error e := by
  unfold chunkBuffered
  simp [hwm, hdec]

/-- A no-op batch outcome: state kept, nothing sent, no collaborator call. -/
def silentBatch (s : Session) (arg : Option (List Nat × Option String)) : BatchOutcome :=
  ⟨s, [], 0, none, arg⟩

/-- A reachable sample session: one pending WAV-source chunk whose two PCM
bytes sit unconsumed in the batch buffer. -/
def sampleRawSession : Session :=
  { chunks := [{ timestamp := 0, sequenceNumber := 1, mimeType := some "audio/wav",
                 decodedPcmBytes := 2 }],
    startTime := 0, lastProcessed := 0, totalChunks := 1, language := "en",
    pcmBuffer := [1, 2], lastBatchOffset := 0, sourceMimeType := some "audio/wav",
    webmBuffer := [], processedPcmOffset := 0, fullPcmBuffer := [1, 2], finalized := false }

/-- A reachable sample session: one pending WebM-source chunk, two container
bytes buffered, nothing decoded yet. -/
def sampleWebmSession : Session :=
  { chunks := [{ timestamp := 0, sequenceNumber := 1, mimeType := some "audio/webm",
                 decodedPcmBytes := 0 }],
    startTime := 0, lastProcessed := 0, totalChunks := 1, language := "en",
    pcmBuffer := [], lastBatchOffset := 0, sourceMimeType := some "audio/webm",
    webmBuffer := [7, 7], processedPcmOffset := 0, fullPcmBuffer := [], finalized := false }

/-- C3: for a STREAMING_CONTAINER session, a triggered batch always hands the
entire `containerBuffer` to the decoder (from byte 0); when the decoded PCM
length is ≤ `processedPcmOffset` the batch aborts silently (state unchanged,
chunks kept, no Transcription Oracle call, no events); otherwise the packaged
container is exactly the WAV wrapping of the PCM slice
`[processedPcmOffset : end]`, `processedPcmOffset` becomes the decoded
length, and `containerBuffer` is untouched.  The RAW_PCM_CONTAINER branch
likewise makes no Transcription Oracle call when no new PCM is pending. -/
theorem c3_streaming_batch_slicing (dec : Decoder) (whisper : WhisperOracle)
    (now : Nat) (s : Session) (pcmFull : List Nat)
    (hchunks : s.chunks ≠ [])
    (hwebm : isWebmSource s.sourceMimeType = true)
    (hdec : dec s.webmBuffer (some "webm") = .ok pcmFull) :
    ((processAudioBatch dec whisper now s).decodeArg = some (s.webmBuffer, some "webm")) ∧
    (pcmFull.length ≤ s.processedPcmOffset →
      processAudioBatch dec whisper now s = silentBatch s (some (s.webmBuffer, some "webm"))) ∧
    (s.processedPcmOffset < pcmFull.length →
      (processAudioBatch dec whisper now s).sentWav =
          some (wavFromPcm (pcmFull.drop s.processedPcmOffset)) ∧
      (processAudioBatch dec whisper now s).session.processedPcmOffset = pcmFull.length ∧
      (processAudioBatch dec whisper now s).session.webmBuffer = s.webmBuffer) ∧
    (∀ s2 : Session, s2.chunks ≠ [] → isWebmSource s2.sourceMimeType = false →
      s2.pcmBuffer.length ≤ s2.lastBatchOffset →
      processAudioBatch dec whisper now s2 = silentBatch s2 none) := by
  refine ⟨?_, ?_, ?_, ?_⟩
  · simp [processAudioBatch, List.isEmpty_iff, hchunks, hwebm, hdec]
    split <;> simp
  · intro hle
    simp [processAudioBatch, List.isEmpty_iff, hchunks, hwebm, hdec, silentBatch,
      if_pos hle]
  · intro hlt
    have hnle : ¬ pcmFull.length ≤ s.processedPcmOffset := by omega
    refine ⟨?_, ?_, ?_⟩ <;>
      simp [processAudioBatch, List.isEmpty_iff, hchunks, hwebm, hdec, if_neg hnle]
  · intro s2 h2 hw2 hle2
    simp [processAudioBatch, List.isEmpty_iff, h2, hw2, silentBatch, if_pos hle2]

/-- C3 witness: a concrete streaming session with new decoded PCM goes
through the slice branch of `c3_streaming_batch_slicing`. -/
theorem c3_streaming_batch_slicing_witness :
    sampleWebmSession.chunks ≠ [] ∧
    isWebmSource sampleWebmSession.sourceMimeType = true ∧
    (processAudioBatch (fun _ _ => .ok [4, 5]) (.ok { text := "t", detectedLanguage := none })
        0 sampleWebmSession).sentWav = some (wavFromPcm [4, 5]) :=
  ⟨by decide, by decide,
    ((((c3_streaming_batch_slicing (fun _ _ => .ok [4, 5])
        (.ok { text := "t", detectedLanguage := none }) 0 sampleWebmSession [4, 5]
        (by decide) (by decide) rfl).2.2.1) (by decide)).1)⟩

/-- C5: a decode failure on a chunk of a non-streaming-format session emits
exactly one structured error event naming the failed sequence number and
leaves the counted state unchanged: `totalChunkCount`, `chunkMeta`,
`pcmBatchBuffer` and `fullSessionPcm` all keep their values, no transcription
happens and no batch is triggered; when the source mime was already fixed
the session record is entirely untouched, so subsequent chunks are processed
exactly as if the failed chunk had never arrived. -/
theorem c5_decode_failure_isolated (dec : Decoder) (whisper : WhisperOracle)
    (now : Nat) (s : Session) (msg : ChunkMsg) (e : String)
    (hwebm : isWebmSource (mimeAfterFix s msg) = false)
    (hdec : dec msg.data msg.mimeType = .error e) :
    ((processAudioChunkBatch dec whisper now s msg).events =
      [.errorEv ("PCM decode failed for chunk " ++ toString msg.sequenceNumber ++ ": " ++ e)]) ∧
    (processAudioChunkBatch dec whisper now s msg).session.totalChunks = s.totalChunks ∧
    (processAudioChunkBatch dec whisper now s msg).session.chunks = s.chunks ∧
    (processAudioChunkBatch dec whisper now s msg).session.pcmBuffer = s.pcmBuffer ∧
    (processAudioChunkBatch dec whisper now s msg).session.fullPcmBuffer = s.fullPcmBuffer ∧
    (processAudioChunkBatch dec whisper now s msg).transcriptionCalls = 0 ∧
    (processAudioChunkBatch dec whisper now s msg).batchTriggered = false ∧
    (pyFalsyStr s.sourceMimeType = false →
      (processAudioChunkBatch dec whisper now s msg).session = s) := by
  have hmain : processAudioChunkBatch dec whisper now s msg =
      ⟨fixSourceMime s msg,
        [.errorEv ("PCM decode failed for chunk " ++ toString msg.sequenceNumber ++ ": " ++ e)],
        0, false⟩ := by
    simp only [processAudioChunkBatch, chunkBuffered_error dec s msg e hwebm hdec]
  refine ⟨?_, ?_, ?_, ?_, ?_, ?_, ?_, ?_⟩
  · rw [hmain]
  · rw [hmain]
    simp
  · rw [hmain]
    simp
  · rw [hmain]
    simp
  · rw [hmain]
    simp
  · rw [hmain]
  · rw [hmain]
  · intro h
    rw [hmain]
    exact fixSourceMime_of_truthy s msg h

/-- C5 witness: a failing decode of chunk 7 on a fresh WAV-format session is
fully isolated. -/
theorem c5_decode_failure_isolated_witness :
    isWebmSource (mimeAfterFix (initSession 0)
      { data := [0], timestamp := 3, sequenceNumber := 7, mimeType := some "audio/wav" }) = false ∧
    ((processAudioChunkBatch (fun _ _ => .error "bad header")
        (.ok { text := "t", detectedLanguage := none }) 0 (initSession 0)
        { data := [0], timestamp := 3, sequenceNumber := 7,
          mimeType := some "audio/wav" }).events =
      [.errorEv "PCM decode failed for chunk 7: bad header"]) :=
  ⟨by decide,
    (c5_decode_failure_isolated (fun _ _ => .error "bad header")
      (.ok { text := "t", detectedLanguage := none }) 0 (initSession 0)
      { data := [0], timestamp := 3, sequenceNumber := 7, mimeType := some "audio/wav" }
      "bad header" (by decide) rfl).1⟩

/-- C10: the transcription step is total and never raises to the batching
engine; on a failing underlying Whisper call the returned result dict has
confidence 0.0, an error key holding the exception text, and a text of the
form "[Transcription Error: ...]"; the batching engine then forwards that
result as an ordinary batch_transcription event — state is updated exactly
as on success and no structured error event is emitted. -/
theorem c10_transcription_error_inline (e : String) (audioBytes : List Nat)
    (chunkCount : Nat) (language : String) :
    (transcribeAudio (.error e) audioBytes chunkCount language).confidence = 0 ∧
    (transcribeAudio (.error e) audioBytes chunkCount language).error = some e ∧
    (∃ rest, (transcribeAudio (.error e) audioBytes chunkCount language).text =
      "[Transcription Error:" ++ rest) ∧
    (∀ (dec : Decoder) (now : Nat) (s : Session), s.chunks ≠ [] →
      isWebmSource s.sourceMimeType = false →
      s.lastBatchOffset < s.pcmBuffer.length →
      ((processAudioBatch dec (.error e) now s).events.any isErrorEvent = false ∧
       (processAudioBatch dec (.error e) now s).events =
        [.batchProcessing s.chunks.length (wavFromPcm (s.pcmBuffer.drop s.lastBatchOffset)).length,
         .batchTranscription ("[Transcription Error: " ++ e ++ "]") 0 s.chunks.length
           ((s.chunks.length : ℚ) * 1)])) := by
  refine ⟨rfl, rfl, ⟨" " ++ (e ++ "]"), ?_⟩, ?_⟩
  · show "[Transcription Error: " ++ e ++ "]" = "[Transcription Error:" ++ (" " ++ (e ++ "]"))
    have h1 : ("[Transcription Error: " : String) = "[Transcription Error:" ++ " " := rfl
    rw [h1, String.append_assoc, String.append_assoc]
  · intro dec now s hchunks hwebm hnew
    have hnle : ¬ s.pcmBuffer.length ≤ s.lastBatchOffset := by omega
    constructor <;>
      simp [processAudioBatch, List.isEmpty_iff, hchunks, hwebm, if_neg hnle,
        transcribeAudio, isErrorEvent]

/-- C10 witness: a concrete failing batch on the sample raw session yields
the inline error transcription event and no error event. -/
theorem c10_transcription_error_inline_witness :
    sampleRawSession.chunks ≠ [] ∧
    ((processAudioBatch (fun _ _ => .ok []) (.error "rate limited") 0
        sampleRawSession).events.any isErrorEvent = false) :=
  ⟨by decide,
    (((c10_transcription_error_inline "rate limited" [] 0 "en").2.2.2
      (fun _ _ => .ok []) 0 sampleRawSession (by decide) (by decide) (by decide)).1)⟩

/-- C1 counterexample: a concrete batch in which the Transcription
collaborator fails (the Whisper call raises, so `transcribe_audio` returns
its inline error dict).  Contrary to the claim, no structured error event is
relayed (`isErrorEvent` matches nothing), `chunkMeta` IS cleared, the RAW
batch buffer IS consumed (compacted to empty), and in the streaming variant
`processedPcmOffset` IS advanced (0 → 2) — the pending audio is not retried. -/
theorem c1_claim_counterexample :
    ((processAudioBatch (fun _ _ => .ok []) (.error "API timeout") 5000000
        sampleRawSession).events.any isErrorEvent = false) ∧
    (processAudioBatch (fun _ _ => .ok []) (.error "API timeout") 5000000
        sampleRawSession).session.chunks = [] ∧
    (processAudioBatch (fun _ _ => .ok []) (.error "API timeout") 5000000
        sampleRawSession).session.pcmBuffer = [] ∧
    (processAudioBatch (fun _ _ => .ok []) (.error "API timeout") 5000000
        sampleRawSession).transcriptionCalls = 1 ∧
    ((processAudioBatch (fun _ _ => .ok [5, 6]) (.error "API timeout") 5000000
        sampleWebmSession).session.processedPcmOffset = 2) := by
  decide

/-- C1 (amended): a failing Whisper call never raises into
`process_audio_batch` — the inline error result is forwarded like a success,
so the batch emits no error event, clears `chunkMeta`, updates
`lastBatchTime`, compacts the RAW buffer (offset 0, buffer emptied) and, in
the streaming branch, advances `processedPcmOffset` to the full decoded
length: the failed batch's audio is NOT retried. -/
theorem c1_transcription_failure_not_retried (dec : Decoder) (e : String)
    (now : Nat) (s : Session)
    (hchunks : s.chunks ≠ [])
    (hwebm : isWebmSource s.sourceMimeType = false)
    (hnew : s.lastBatchOffset < s.pcmBuffer.length) :
    ((processAudioBatch dec (.error e) now s).events.any isErrorEvent = false) ∧
    (processAudioBatch dec (.error e) now s).session.chunks = [] ∧
    (processAudioBatch dec (.error e) now s).session.pcmBuffer = [] ∧
    (processAudioBatch dec (.error e) now s).session.lastBatchOffset = 0 ∧
    (processAudioBatch dec (.error e) now s).session.lastProcessed = now ∧
    (∀ (s2 : Session) (pcmFull : List Nat), s2.chunks ≠ [] →
      isWebmSource s2.sourceMimeType = true →
      dec s2.webmBuffer (some "webm") = .ok pcmFull →
      s2.processedPcmOffset < pcmFull.length →
      ((processAudioBatch dec (.error e) now s2).session.processedPcmOffset = pcmFull.length ∧
       (processAudioBatch dec (.error e) now s2).session.chunks = [] ∧
       (processAudioBatch dec (.error e) now s2).events.any isErrorEvent = false)) := by
  have hnle : ¬ s.pcmBuffer.length ≤ s.lastBatchOffset := by omega
  refine ⟨?_, ?_, ?_, ?_, ?_, ?_⟩
  · simp [processAudioBatch, List.isEmpty_iff, hchunks, hwebm, if_neg hnle, isErrorEvent]
  · simp [processAudioBatch, List.isEmpty_iff, hchunks, hwebm, if_neg hnle]
  · simp [processAudioBatch, List.isEmpty_iff, hchunks, hwebm, if_neg hnle]
  · simp [processAudioBatch, List.isEmpty_iff, hchunks, hwebm, if_neg hnle]
  · simp [processAudioBatch, List.isEmpty_iff, hchunks, hwebm, if_neg hnle]
  · intro s2 pcmFull h2 hw2 hdec2 hlt2
    have hnle2 : ¬ pcmFull.length ≤ s2.processedPcmOffset := by omega
    refine ⟨?_, ?_, ?_⟩ <;>
      simp [processAudioBatch, List.isEmpty_iff, h2, hw2, hdec2, if_neg hnle2, isErrorEvent]

/-- C1 amended witness: the concrete raw-session batch from the amended
theorem clears the pending chunk metadata. -/
theorem c1_transcription_failure_not_retried_witness :
    sampleRawSession.chunks ≠ [] ∧
    (processAudioBatch (fun _ _ => .ok []) (.error "oops") 0
      sampleRawSession).session.chunks = [] :=
  ⟨by decide,
    (c1_transcription_failure_not_retried (fun _ _ => .ok []) "oops" 0 sampleRawSession
      (by decide) (by decide) (by decide)).2.1⟩

/-- Two consecutive Finalizer invocations on the same session, counting how
many of them invoked the Object Store collaborator. -/
def finalizeTwice (dec : Decoder) (store1 store2 : StoreOracle) (s : Session) : Nat :=
  let f1 := finalizeSessionRecording dec store1 s
  let f2 := finalizeSessionRecording dec store2 f1.session
  (if f1.storeCalled then 1 else 0) + (if f2.storeCalled then 1 else 0)

/-- C2 counterexample: when the first archival upload raises, `finalized` is
never set (the assignment sits after the call inside the `try`), so a second
Finalizer invocation on this non-empty session calls the Object Store again:
two store calls, not exactly one. -/
theorem c2_claim_counterexample :
    finalizeTwice (fun _ _ => .ok []) (.error "upload failed") (.ok (some "blob"))
      sampleRawSession = 2 := by
  decide

/-- C2 (amended): finalizing twice with non-empty audio performs exactly one
Object Store call provided the first upload call returns (including the
unconfigured skip); if the first upload raises, `finalized` stays false and
the second invocation performs a second store call.  A session with
`finalized = true` never invokes the Object Store. -/
theorem c2_finalize_single_store (dec : Decoder) (store1 store2 : StoreOracle)
    (s : Session) (w : List Nat)
    (hfin : s.finalized = false)
    (hwav : buildFullWav dec s = some w) :
    ((∃ b, store1 = .ok b) → finalizeTwice dec store1 store2 s = 1) ∧
    ((∃ err, store1 = .error err) → finalizeTwice dec store1 store2 s = 2) ∧
    (∀ (store3 : StoreOracle) (s3 : Session), s3.finalized = true →
      (finalizeSessionRecording dec store3 s3).storeCalled = false) := by
  refine ⟨?_, ?_, ?_⟩
  · rintro ⟨b, rfl⟩
    simp [finalizeTwice, finalizeSessionRecording, hfin, hwav]
  · rintro ⟨err, rfl⟩
    cases store2 <;> simp [finalizeTwice, finalizeSessionRecording, hfin, hwav]
  · intro store3 s3 h3
    simp [finalizeSessionRecording, h3]

/-- C2 amended witness: with a completing (unconfigured-skip) first upload,
two Finalizer invocations on the sample session make exactly one store call. -/
theorem c2_finalize_single_store_witness :
    sampleRawSession.finalized = false ∧
    finalizeTwice (fun _ _ => .ok []) (.ok none) (.ok none) sampleRawSession = 1 :=
  ⟨by decide,
    (c2_finalize_single_store (fun _ _ => .ok []) (.ok none) (.ok none) sampleRawSession
      (wavFromPcm [1, 2]) (by decide) (by decide)).1 ⟨none, rfl⟩⟩

theorem processAudioBatch_calls_le_one (dec : Decoder) (whisper : WhisperOracle)
    (now : Nat) (s : Session) :
    (processAudioBatch dec whisper now s).transcriptionCalls ≤ 1 := by
  simp only [processAudioBatch]
  repeat' split
  all_goals simp

/-- Follows the spec's words for claim C4: a batch is triggered iff the
pending chunk count reached minChunks or maxChunks, or at least
windowSeconds (5 s, here in microseconds) elapsed since the last batch. -/
def specTriggerCond (pendingChunks elapsedMicros : Nat) : Prop :=
  MIN_CHUNKS_FOR_BATCH ≤ pendingChunks ∨ MAX_CHUNKS_FOR_BATCH ≤ pendingChunks ∨
    BATCH_SIZE_SECONDS * 1000000 ≤ elapsedMicros

/-- C4 counterexample: a first chunk arriving exactly one day after
`lastBatchTime` satisfies the spec's elapsed-time condition (86400 s ≥ 5 s),
yet the code computes `timedelta.seconds` — the elapsed time modulo one
day, here 0 — and does not trigger a batch. -/
theorem c4_claim_counterexample :
    specTriggerCond 1 (86400000000 - (initSession 0).lastProcessed) ∧
    ((processAudioChunkBatch (fun _ _ => .ok [1, 2])
        (.ok { text := "t", detectedLanguage := none }) 86400000000 (initSession 0)
        { data := [0], timestamp := 0, sequenceNumber := 1,
          mimeType := some "audio/wav" }).session.chunks.length = 1) ∧
    ((processAudioChunkBatch (fun _ _ => .ok [1, 2])
        (.ok { text := "t", detectedLanguage := none }) 86400000000 (initSession 0)
        { data := [0], timestamp := 0, sequenceNumber := 1,
          mimeType := some "audio/wav" }).batchTriggered = false) := by
  refine ⟨?_, by decide, by decide⟩
  right
  right
  decide

/-- C4 (amended): after a successfully processed chunk the batch branch is
entered iff the new pending count reaches minChunks (5) or maxChunks (20),
or the `timedelta.seconds` component of now − lastBatchTime — the elapsed
time modulo one day, floored to whole seconds — reaches windowSeconds (5);
at most one transcription happens per chunk event, and when the trigger
fires on a non-streaming chunk carrying new PCM the single batch packages
all pending chunks: the acknowledgment, the one batch_processing event and
the one batch_transcription event all carry the full count, and chunkMeta is
cleared. -/
theorem c4_trigger_policy (dec : Decoder) (whisper : WhisperOracle) (now : Nat)
    (s : Session) (msg : ChunkMsg)
    (hsucc : isWebmSource (mimeAfterFix s msg) = true ∨
      ∃ pcm, dec msg.data msg.mimeType = Except.ok pcm) :
    ((processAudioChunkBatch dec whisper now s msg).batchTriggered = true ↔
      (MIN_CHUNKS_FOR_BATCH ≤ s.chunks.length + 1 ∨
       MAX_CHUNKS_FOR_BATCH ≤ s.chunks.length + 1 ∨
       BATCH_SIZE_SECONDS ≤ timedeltaSeconds now s.lastProcessed)) ∧
    (processAudioChunkBatch dec whisper now s msg).transcriptionCalls ≤ 1 ∧
    (∀ pcm, isWebmSource (mimeAfterFix s msg) = false →
      dec msg.data msg.mimeType = Except.ok pcm →
      s.lastBatchOffset ≤ s.pcmBuffer.length → pcm ≠ [] →
      (processAudioChunkBatch dec whisper now s msg).batchTriggered = true →
      ((processAudioChunkBatch dec whisper now s msg).session.chunks = [] ∧
       ∃ sz txt conf dur,
        (processAudioChunkBatch dec whisper now s msg).events =
          [OutEvent.audioAck msg.sequenceNumber (s.chunks.length + 1),
           OutEvent.batchProcessing (s.chunks.length + 1) sz,
           OutEvent.batchTranscription txt conf (s.chunks.length + 1) dur])) := by
  refine ⟨?_, ?_, ?_⟩
  · by_cases hwm : isWebmSource (mimeAfterFix s msg) = true
    · rw [processAudioChunkBatch, chunkBuffered_webm dec s msg hwm]
      simp only []
      split <;> simp_all [MIN_CHUNKS_FOR_BATCH, MAX_CHUNKS_FOR_BATCH, BATCH_SIZE_SECONDS] <;>
        omega
    · obtain ⟨pcm, hok⟩ := hsucc.resolve_left hwm
      have hwm2 : isWebmSource (mimeAfterFix s msg) = false := by
        simpa using hwm
      rw [processAudioChunkBatch, chunkBuffered_raw dec s msg pcm hwm2 hok]
      simp only []
      split <;> simp_all [MIN_CHUNKS_FOR_BATCH, MAX_CHUNKS_FOR_BATCH, BATCH_SIZE_SECONDS] <;>
        omega
  · by_cases hwm : isWebmSource (mimeAfterFix s msg) = true
    · rw [processAudioChunkBatch, chunkBuffered_webm dec s msg hwm]
      simp only []
      split
      · exact processAudioBatch_calls_le_one dec whisper now _
      · exact Nat.zero_le 1
    · obtain ⟨pcm, hok⟩ := hsucc.resolve_left hwm
      have hwm2 : isWebmSource (mimeAfterFix s msg) = false := by
        simpa using hwm
      rw [processAudioChunkBatch, chunkBuffered_raw dec s msg pcm hwm2 hok]
      simp only []
      split
      · exact processAudioBatch_calls_le_one dec whisper now _
      · exact Nat.zero_le 1
  · intro pcm hwm hok hle hpcm
    rw [processAudioChunkBatch, chunkBuffered_raw dec s msg pcm hwm hok]
    have hne : ¬ s.pcmBuffer.length + pcm.length ≤ s.lastBatchOffset := by
      have := List.length_pos.mpr hpcm
      omega
    simp only []
    split
    · intro _
      constructor
      · simp [processAudioBatch, List.isEmpty_iff, hwm, hne]
      · exact ⟨(wavFromPcm (List.drop s.lastBatchOffset (s.pcmBuffer ++ pcm))).length,
          (transcribeAudio whisper (wavFromPcm (List.drop s.lastBatchOffset (s.pcmBuffer ++ pcm)))
            (s.chunks.length + 1) s.language).text,
          (transcribeAudio whisper (wavFromPcm (List.drop s.lastBatchOffset (s.pcmBuffer ++ pcm)))
            (s.chunks.length + 1) s.language).confidence,
          (transcribeAudio whisper (wavFromPcm (List.drop s.lastBatchOffset (s.pcmBuffer ++ pcm)))
            (s.chunks.length + 1) s.language).duration,
          by simp [processAudioBatch, List.isEmpty_iff, hwm, hne]⟩
    · intro h
      simp at h

/-- A session that has accumulated four WAV-source chunks (two PCM bytes
each) within the first second of its window. -/
def fourChunkSession : Session :=
  { chunks := [
      { timestamp := 1, sequenceNumber := 1, mimeType := some "audio/wav", decodedPcmBytes := 2 },
      { timestamp := 2, sequenceNumber := 2, mimeType := some "audio/wav", decodedPcmBytes := 2 },
      { timestamp := 3, sequenceNumber := 3, mimeType := some "audio/wav", decodedPcmBytes := 2 },
      { timestamp := 4, sequenceNumber := 4, mimeType := some "audio/wav", decodedPcmBytes := 2 }],
    startTime := 0, lastProcessed := 0, totalChunks := 4, language := "en",
    pcmBuffer := [1, 2, 3, 4, 5, 6, 7, 8], lastBatchOffset := 0,
    sourceMimeType := some "audio/wav", webmBuffer := [], processedPcmOffset := 0,
    fullPcmBuffer := [1, 2, 3, 4, 5, 6, 7, 8], finalized := false }

/-- The decoder oracle used in the C4 witness: every chunk decodes to two
PCM bytes. -/
def c4WitnessDec : Decoder := fun _ _ => .ok [9, 10]

/-- The whisper oracle used in the C4 witness: transcription succeeds. -/
def c4WitnessWhisper : WhisperOracle := .ok { text := "t", detectedLanguage := none }

/-- The fifth chunk of the C4 witness scenario. -/
def c4Msg5 : ChunkMsg :=
  { data := [0], timestamp := 5, sequenceNumber := 5, mimeType := some "audio/wav" }

/-- C4 witness: the fifth chunk, arriving one second in, satisfies the
minChunks arm and triggers exactly one batch packaging all five chunks. -/
theorem c4_trigger_policy_witness :
    (∃ pcm, c4WitnessDec c4Msg5.data c4Msg5.mimeType = Except.ok pcm) ∧
    (processAudioChunkBatch c4WitnessDec c4WitnessWhisper 1000000 fourChunkSession
      c4Msg5).batchTriggered = true ∧
    (processAudioChunkBatch c4WitnessDec c4WitnessWhisper 1000000 fourChunkSession
      c4Msg5).session.chunks = [] := by
  have hs : isWebmSource (mimeAfterFix fourChunkSession c4Msg5) = true ∨
      ∃ pcm, c4WitnessDec c4Msg5.data c4Msg5.mimeType = Except.ok pcm :=
    Or.inr ⟨[9, 10], rfl⟩
  have h := c4_trigger_policy c4WitnessDec c4WitnessWhisper 1000000 fourChunkSession c4Msg5 hs
  have htrig : (processAudioChunkBatch c4WitnessDec c4WitnessWhisper 1000000 fourChunkSession
      c4Msg5).batchTriggered = true :=
    h.1.mpr (Or.inl (by decide))
  exact ⟨⟨[9, 10], rfl⟩, htrig,
    (h.2.2 [9, 10] (by decide) rfl (by decide) (by decide) htrig).1⟩

/-- C7 counterexample: an abrupt disconnection of a session with pending
chunk metadata emits NO outbound events — neither the last Batch Packager
pass's events nor the recording-complete notice — even though the claim
demands the full Finalizing path; only the archival attempt and registry
removal happen. -/
theorem c7_claim_counterexample :
    sampleRawSession.chunks ≠ [] ∧
    (sessionTeardown (fun _ _ => .ok []) (.ok { text := "t", detectedLanguage := none })
      (.ok none) 0 false true sampleRawSession).events = [] ∧
    (sessionTeardown (fun _ _ => .ok []) (.ok { text := "t", detectedLanguage := none })
      (.ok none) 0 false true sampleRawSession).storeCalled = true ∧
    (sessionTeardown (fun _ _ => .ok []) (.ok { text := "t", detectedLanguage := none })
      (.ok none) 0 false true sampleRawSession).removed = true := by
  decide

/-- C7 (amended): an abrupt disconnection executes only the tail of the
Finalizing path — the full-session archival attempt and the unconditional
registry removal; the last Batch Packager pass and the recording-complete
notice run only on an explicit end-of-recording event, where the teardown
first drains via process_final_batch and then archives and removes. -/
theorem c7_abrupt_teardown_skips_drain (dec : Decoder) (whisper : WhisperOracle)
    (store : StoreOracle) (now : Nat) (conn : Bool) (s : Session) :
    (sessionTeardown dec whisper store now false conn s =
      ⟨[], (finalizeSessionRecording dec store s).session,
        (finalizeSessionRecording dec store s).storeCalled, true⟩) ∧
    (sessionTeardown dec whisper store now true conn s =
      ⟨(processFinalBatch dec whisper now s conn).2,
        (finalizeSessionRecording dec store (processFinalBatch dec whisper now s conn).1).session,
        (finalizeSessionRecording dec store (processFinalBatch dec whisper now s conn).1).storeCalled,
        true⟩) := by
  constructor
  · rfl
  · rfl

theorem processAudioBatch_sourceMimeType (dec : Decoder) (whisper : WhisperOracle)
    (now : Nat) (s : Session) :
    (processAudioBatch dec whisper now s).session.sourceMimeType = s.sourceMimeType := by
  simp only [processAudioBatch]
  repeat' split
  all_goals rfl

/-- C8 counterexample: a first chunk declaring the empty MIME string fixes
the spec-level source format to RAW_PCM_CONTAINER, but — because the code
guards the assignment with Python truthiness (`if not ...`), under which the
empty string counts as unset — a later chunk declaring a WebM type
re-assigns the stored mime and flips the format to STREAMING_CONTAINER. -/
theorem c8_claim_counterexample :
    (sourceFormatOf (processAudioChunkBatch (fun _ _ => .ok [])
      (.ok { text := "t", detectedLanguage := none }) 0 (initSession 0)
      { data := [0], timestamp := 0, sequenceNumber := 1, mimeType := some "" }).session =
        SourceFormat.RAW_PCM_CONTAINER) ∧
    (sourceFormatOf (processAudioChunkBatch (fun _ _ => .ok [])
      (.ok { text := "t", detectedLanguage := none }) 0
      (processAudioChunkBatch (fun _ _ => .ok [])
        (.ok { text := "t", detectedLanguage := none }) 0 (initSession 0)
        { data := [0], timestamp := 0, sequenceNumber := 1, mimeType := some "" }).session
      { data := [1], timestamp := 1, sequenceNumber := 2,
        mimeType := some "audio/webm" }).session = SourceFormat.STREAMING_CONTAINER) := by
  decide

theorem chunkBuffered_ok_mime (dec : Decoder) (s : Session) (msg : ChunkMsg)
    (s1 : Session) (n : Nat) (hb : chunkBuffered dec s msg = .ok (s1, n)) :
    s1.sourceMimeType = mimeAfterFix s msg := by
  by_cases hw : isWebmSource (mimeAfterFix s msg) = true
  · rw [chunkBuffered_webm dec s msg hw] at hb
    simp only [Except.ok.injEq, Prod.mk.injEq] at hb
    rw [← hb.1]
    simp
  · have hw2 : isWebmSource (mimeAfterFix s msg) = false := by
      simpa using hw
    cases hdec : dec msg.data msg.mimeType with
    | error e =>
      rw [chunkBuffered_error dec s msg e hw2 hdec] at hb
      simp at hb
    | ok pcm =>
      rw [chunkBuffered_raw dec s msg pcm hw2 hdec] at hb
      simp only [Except.ok.injEq, Prod.mk.injEq] at hb
      rw [← hb.1]
      simp

theorem processAudioChunkBatch_mime (dec : Decoder) (whisper : WhisperOracle)
    (now : Nat) (s : Session) (msg : ChunkMsg) :
    (processAudioChunkBatch dec whisper now s msg).session.sourceMimeType =
      mimeAfterFix s msg := by
  simp only [processAudioChunkBatch]
  cases hb : chunkBuffered dec s msg with
  | error e => simp
  | ok pair =>
    obtain ⟨s1, n⟩ := pair
    have hmime := chunkBuffered_ok_mime dec s msg s1 n hb
    simp only []
    split
    · rw [processAudioBatch_sourceMimeType]
      simpa using hmime
    · simpa using hmime

/-- C8 (amended): the stored source mime — and with it the session's
sourceFormat — is fixed by the first chunk whose declared MIME type is
truthy (neither null nor empty): once truthy it is never changed by any
later chunk or batch, even one declaring a different type; a chunk seen
while the stored value is still falsy (unset, null or empty) overwrites it
with its own declared type. -/
theorem c8_source_format_sticky (dec : Decoder) (whisper : WhisperOracle)
    (now : Nat) (s : Session) (msg : ChunkMsg)
    (h : pyFalsyStr s.sourceMimeType = false) :
    ((processAudioChunkBatch dec whisper now s msg).session.sourceMimeType =
        s.sourceMimeType ∧
     sourceFormatOf (processAudioChunkBatch dec whisper now s msg).session =
        sourceFormatOf s) ∧
    (∀ s2 : Session,
      (processAudioBatch dec whisper now s2).session.sourceMimeType = s2.sourceMimeType) ∧
    (∀ (s3 : Session) (msg3 : ChunkMsg), pyFalsyStr s3.sourceMimeType = true →
      (processAudioChunkBatch dec whisper now s3 msg3).session.sourceMimeType =
        msg3.mimeType) := by
  have hkeep : (processAudioChunkBatch dec whisper now s msg).session.sourceMimeType =
      s.sourceMimeType := by
    rw [processAudioChunkBatch_mime]
    unfold mimeAfterFix
    simp [h]
  refine ⟨⟨hkeep, ?_⟩, ?_, ?_⟩
  · unfold sourceFormatOf
    rw [hkeep]
  · intro s2
    exact processAudioBatch_sourceMimeType dec whisper now s2
  · intro s3 msg3 h3
    rw [processAudioChunkBatch_mime]
    unfold mimeAfterFix
    simp [h3]

/-- C8 witness: a WAV-fixed session keeps its source mime even when a later
chunk declares WebM. -/
theorem c8_source_format_sticky_witness :
    pyFalsyStr sampleRawSession.sourceMimeType = false ∧
    (processAudioChunkBatch (fun _ _ => .ok [])
      (.ok { text := "t", detectedLanguage := none }) 0 sampleRawSession
      { data := [0], timestamp := 9, sequenceNumber := 2,
        mimeType := some "audio/webm" }).session.sourceMimeType = some "audio/wav" :=
  ⟨by decide,
    by
      rw [(c8_source_format_sticky (fun _ _ => .ok [])
        (.ok { text := "t", detectedLanguage := none }) 0 sampleRawSession
        { data := [0], timestamp := 9, sequenceNumber := 2, mimeType := some "audio/webm" }
        (by decide)).1.1]
      decide⟩

theorem chunkBuffered_ok_offsets (dec : Decoder) (s : Session) (msg : ChunkMsg)
    (s1 : Session) (n : Nat) (hb : chunkBuffered dec s msg = .ok (s1, n)) :
    s1.lastBatchOffset = s.lastBatchOffset ∧
    s1.processedPcmOffset = s.processedPcmOffset := by
  by_cases hw : isWebmSource (mimeAfterFix s msg) = true
  · rw [chunkBuffered_webm dec s msg hw] at hb
    simp only [Except.ok.injEq, Prod.mk.injEq] at hb
    rw [← hb.1]
    simp
  · have hw2 : isWebmSource (mimeAfterFix s msg) = false := by
      simpa using hw
    cases hdec : dec msg.data msg.mimeType with
    | error e =>
      rw [chunkBuffered_error dec s msg e hw2 hdec] at hb
      simp at hb
    | ok pcm =>
      rw [chunkBuffered_raw dec s msg pcm hw2 hdec] at hb
      simp only [Except.ok.injEq, Prod.mk.injEq] at hb
      rw [← hb.1]
      simp

theorem processAudioBatch_offset_cases (dec : Decoder) (whisper : WhisperOracle)
    (now : Nat) (s : Session) :
    ((processAudioBatch dec whisper now s).session.lastBatchOffset = s.lastBatchOffset ∧
     (processAudioBatch dec whisper now s).session.pcmBuffer = s.pcmBuffer) ∨
    ((processAudioBatch dec whisper now s).session.lastBatchOffset = 0 ∧
     (processAudioBatch dec whisper now s).session.pcmBuffer = []) := by
  simp only [processAudioBatch]
  repeat' split
  all_goals first
    | exact Or.inl ⟨rfl, rfl⟩
    | exact Or.inr ⟨rfl, List.drop_length s.pcmBuffer⟩

theorem processAudioBatch_procOffset_mono (dec : Decoder) (whisper : WhisperOracle)
    (now : Nat) (s : Session) :
    s.processedPcmOffset ≤ (processAudioBatch dec whisper now s).session.processedPcmOffset := by
  simp only [processAudioBatch]
  repeat' split
  all_goals simp_all
  all_goals omega

theorem processAudioBatch_offset_zero (dec : Decoder) (whisper : WhisperOracle)
    (now : Nat) (s : Session) (h : s.lastBatchOffset = 0) :
    (processAudioBatch dec whisper now s).session.lastBatchOffset = 0 := by
  rcases processAudioBatch_offset_cases dec whisper now s with h2 | h2
  · rw [h2.1, h]
  · exact h2.1

theorem processAudioChunkBatch_offset_zero (dec : Decoder) (whisper : WhisperOracle)
    (now : Nat) (s : Session) (msg : ChunkMsg) (h : s.lastBatchOffset = 0) :
    (processAudioChunkBatch dec whisper now s msg).session.lastBatchOffset = 0 := by
  simp only [processAudioChunkBatch]
  cases hb : chunkBuffered dec s msg with
  | error e =>
    simpa using h
  | ok pair =>
    obtain ⟨s1, n⟩ := pair
    have h1 : s1.lastBatchOffset = 0 :=
      (chunkBuffered_ok_offsets dec s msg s1 n hb).1.trans h
    simp only []
    split
    · exact processAudioBatch_offset_zero dec whisper now _ (by simpa using h1)
    · simpa using h1

theorem processAudioChunkBatch_procOffset_mono (dec : Decoder) (whisper : WhisperOracle)
    (now : Nat) (s : Session) (msg : ChunkMsg) :
    s.processedPcmOffset ≤
      (processAudioChunkBatch dec whisper now s msg).session.processedPcmOffset := by
  simp only [processAudioChunkBatch]
  cases hb : chunkBuffered dec s msg with
  | error e =>
    simp
  | ok pair =>
    obtain ⟨s1, n⟩ := pair
    have h1 : s1.processedPcmOffset = s.processedPcmOffset :=
      (chunkBuffered_ok_offsets dec s msg s1 n hb).2
    simp only []
    split
    · refine le_trans ?_ (processAudioBatch_procOffset_mono dec whisper now _)
      simp [h1]
    · simp [h1]

theorem processFinalBatch_offset_zero (dec : Decoder) (whisper : WhisperOracle)
    (now : Nat) (s : Session) (conn : Bool) (h : s.lastBatchOffset = 0) :
    (processFinalBatch dec whisper now s conn).1.lastBatchOffset = 0 := by
  simp only [processFinalBatch]
  split
  · simpa using h
  · simpa using processAudioBatch_offset_zero dec whisper now s h

theorem processFinalBatch_procOffset_mono (dec : Decoder) (whisper : WhisperOracle)
    (now : Nat) (s : Session) (conn : Bool) :
    s.processedPcmOffset ≤ (processFinalBatch dec whisper now s conn).1.processedPcmOffset := by
  simp only [processFinalBatch]
  split
  · simp
  · simpa using processAudioBatch_procOffset_mono dec whisper now s

theorem finalizeSessionRecording_offsets (dec : Decoder) (store : StoreOracle) (s : Session) :
    (finalizeSessionRecording dec store s).session.lastBatchOffset = s.lastBatchOffset ∧
    (finalizeSessionRecording dec store s).session.processedPcmOffset = s.processedPcmOffset := by
  simp only [finalizeSessionRecording]
  repeat' split
  all_goals exact ⟨rfl, rfl⟩

/-- One observable state transition of a session: a processed chunk event, a
batch pass, the final drain, or the Finalizer. -/
inductive SessionStep : Session → Session → Prop where
  | chunk (dec : Decoder) (whisper : WhisperOracle) (now : Nat) (s : Session) (msg : ChunkMsg) :
      SessionStep s (processAudioChunkBatch dec whisper now s msg).session
  | batch (dec : Decoder) (whisper : WhisperOracle) (now : Nat) (s : Session) :
      SessionStep s (processAudioBatch dec whisper now s).session
  | finalBatch (dec : Decoder) (whisper : WhisperOracle) (now : Nat) (s : Session) (conn : Bool) :
      SessionStep s (processFinalBatch dec whisper now s conn).1
  | finalize (dec : Decoder) (store : StoreOracle) (s : Session) :
      SessionStep s (finalizeSessionRecording dec store s).session

/-- The session states reachable from a fresh session through any sequence
of steps (each step with arbitrary collaborator outcomes). -/
inductive ReachableSession : Session → Prop where
  | init (now : Nat) : ReachableSession (initSession now)
  | step (s s' : Session) (h : ReachableSession s) (hs : SessionStep s s') :
      ReachableSession s'

theorem sessionStep_offset_zero (s s' : Session) (h : s.lastBatchOffset = 0)
    (hs : SessionStep s s') : s'.lastBatchOffset = 0 := by
  cases hs with
  | chunk dec whisper now _ msg =>
    exact processAudioChunkBatch_offset_zero dec whisper now s msg h
  | batch dec whisper now _ =>
    exact processAudioBatch_offset_zero dec whisper now s h
  | finalBatch dec whisper now _ conn =>
    exact processFinalBatch_offset_zero dec whisper now s conn h
  | finalize dec store _ =>
    rw [(finalizeSessionRecording_offsets dec store s).1, h]

theorem sessionStep_procOffset_mono (s s' : Session) (hs : SessionStep s s') :
    s.processedPcmOffset ≤ s'.processedPcmOffset := by
  cases hs with
  | chunk dec whisper now _ msg =>
    exact processAudioChunkBatch_procOffset_mono dec whisper now s msg
  | batch dec whisper now _ =>
    exact processAudioBatch_procOffset_mono dec whisper now s
  | finalBatch dec whisper now _ conn =>
    exact processFinalBatch_procOffset_mono dec whisper now s conn
  | finalize dec store _ =>
    rw [(finalizeSessionRecording_offsets dec store s).2]

theorem reachable_offset_zero (s : Session) (h : ReachableSession s) :
    s.lastBatchOffset = 0 := by
  induction h with
  | init now => rfl
  | step s s' hr hs ih => exact sessionStep_offset_zero s s' ih hs

/-- C6: at every observation point of every reachable session,
`batchOffset ≤ len(pcmBatchBuffer)` (the offset is in fact always 0 at
rest) and `processedPcmOffset` never decreases across any step; and a
RAW_PCM_CONTAINER batch that consumes pending PCM compacts the buffer:
`batchOffset` ends at 0 and the buffer length shrinks by exactly the number
of bytes the batch consumed. -/
theorem c6_offset_invariants (s s' : Session)
    (hr : ReachableSession s) (hstep : SessionStep s s') :
    s'.lastBatchOffset ≤ s'.pcmBuffer.length ∧
    s.processedPcmOffset ≤ s'.processedPcmOffset ∧
    (∀ (dec : Decoder) (whisper : WhisperOracle) (now : Nat),
      isWebmSource s.sourceMimeType = false → s.chunks ≠ [] →
      s.lastBatchOffset < s.pcmBuffer.length →
      ((processAudioBatch dec whisper now s).session.lastBatchOffset = 0 ∧
       (processAudioBatch dec whisper now s).session.pcmBuffer.length +
         (s.pcmBuffer.drop s.lastBatchOffset).length = s.pcmBuffer.length)) := by
  have hz : s.lastBatchOffset = 0 := reachable_offset_zero s hr
  have hz' : s'.lastBatchOffset = 0 := sessionStep_offset_zero s s' hz hstep
  refine ⟨hz' ▸ Nat.zero_le _, sessionStep_procOffset_mono s s' hstep, ?_⟩
  intro dec whisper now hw hc hlt
  have hne : ¬ s.pcmBuffer.length ≤ s.lastBatchOffset := by omega
  have hnil : s.pcmBuffer ≠ [] := by
    intro hx
    rw [hx] at hlt
    simp at hlt
  constructor
  · simp [processAudioBatch, List.isEmpty_iff, hc, hw, hne, hnil]
  · simp [processAudioBatch, List.isEmpty_iff, hc, hw, hne, hz, hnil]

/-- C6 witness: the first chunk of a fresh session is one reachable step;
the invariants hold across it. -/
theorem c6_offset_invariants_witness :
    ((processAudioChunkBatch c4WitnessDec c4WitnessWhisper 0 (initSession 0)
        { data := [0], timestamp := 0, sequenceNumber := 1,
          mimeType := some "audio/wav" }).session.lastBatchOffset ≤
      (processAudioChunkBatch c4WitnessDec c4WitnessWhisper 0 (initSession 0)
        { data := [0], timestamp := 0, sequenceNumber := 1,
          mimeType := some "audio/wav" }).session.pcmBuffer.length) ∧
    ((initSession 0).processedPcmOffset ≤
      (processAudioChunkBatch c4WitnessDec c4WitnessWhisper 0 (initSession 0)
        { data := [0], timestamp := 0, sequenceNumber := 1,
          mimeType := some "audio/wav" }).session.processedPcmOffset) :=
  have h := c6_offset_invariants (initSession 0) _ (ReachableSession.init 0)
    (SessionStep.chunk c4WitnessDec c4WitnessWhisper 0 (initSession 0)
      { data := [0], timestamp := 0, sequenceNumber := 1, mimeType := some "audio/wav" })
  ⟨h.1, h.2.1⟩

/-- C9 witness: the two-byte PCM sequence [1, 2] survives the container
round trip. -/
theorem c9_wav_roundtrip_witness :
    ([1, 2] : List Nat).length % 2 = 0 ∧
    extractWavData (wavFromPcm [1, 2]) = some [1, 2] :=
  ⟨by decide, c9_wav_roundtrip [1, 2] (by decide) (by decide)⟩
